import Mathlib

/-!
Shallow embedding of `toscaparser/tosca_template.py` (class `ToscaTemplate`)
and proofs about its import-resolution and type-registry merge logic.

YAML documents are modelled as ordered association lists of key/value pairs
(`Doc`), matching Python `dict` semantics: unique keys in practice, insertion
order preserved, `dict.update` overwrites existing keys in place and appends
new keys at the end.  External effects (`os.path.isfile`, `os.path.isabs`,
path joining, URL validation/joining and the YAML loader) are oracle fields
of an environment record `Env`.
-/

/-- A YAML scalar / collection value, as produced by the YAML loader. -/
inductive Value where
  | str : String → Value
  | list : List Value → Value
  | map : List (String × Value) → Value
  | none : Value

/-- A YAML mapping (Python `dict`): an ordered association list. -/
abbrev Doc := List (String × Value)

/-- First-match association-list lookup: Python `d.get(k)` / `d[k]`
(dicts have unique keys, so first match is the match). -/
def dlookup : Doc → String → Option Value
  | [], _ => Option.none
  | (a, b) :: rest, k => if a = k then some b else dlookup rest k

/-- Lookup of the LAST binding of a key (used to state which of several
colliding updates survives an overwrite-merge). -/
def dlookupLast (d : Doc) (k : String) : Option Value :=
  dlookup d.reverse k

/-- Python `d[k] = v`: replace the value at the first binding of `k`,
keeping its position, or append `(k, v)` when `k` is absent. -/
def dictSet : Doc → String → Value → Doc
  | [], k, v => [(k, v)]
  | (a, b) :: rest, k, v =>
      if a = k then (k, v) :: rest else (a, b) :: dictSet rest k v

/-- Python `d.update(e)`: set each binding of `e` into `d`, in order. -/
def dictUpdate (d e : Doc) : Doc :=
  e.foldl (fun acc p => dictSet acc p.1 p.2) d

/-- Left-biased choice on options (`a` if present, else `b`). -/
def oOr (a b : Option Value) : Option Value :=
  match a with
  | some v => some v
  | Option.none => b

/-- Python truthiness of a YAML value. -/
def Value.truthy : Value → Bool
  | .str s => !s.isEmpty
  | .list vs => !vs.isEmpty
  | .map m => !m.isEmpty
  | .none => false

/-- Python iteration over a value: lists yield elements, strings yield
one-character strings, mappings yield their keys. -/
def Value.pyIter : Value → List Value
  | .str s => s.data.map (fun c => Value.str (String.singleton c))
  | .list vs => vs
  | .map m => m.map (fun p => Value.str p.1)
  | .none => []

/-! ### Template key names (`SECTIONS` tuple in the source) -/

def DEFINITION_VERSION : String := "tosca_definitions_version"
def DEFAULT_NAMESPACE : String := "tosca_default_namespace"
def TEMPLATE_NAME : String := "template_name"
def TOPOLOGY_TEMPLATE : String := "topology_template"
def TEMPLATE_AUTHOR : String := "template_author"
def TEMPLATE_VERSION : String := "template_version"
def DESCRIPTION : String := "description"
def IMPORTS : String := "imports"
def DSL_DEFINITIONS : String := "dsl_definitions"
def NODE_TYPES : String := "node_types"
def RELATIONSHIP_TYPES : String := "relationship_types"
def RELATIONSHIP_TEMPLATES : String := "relationship_templates"
def CAPABILITY_TYPES : String := "capability_types"
def ARTIFACT_TYPES : String := "artifact_types"
def DATATYPE_DEFINITIONS : String := "datatype_definitions"

def SECTIONS : List String :=
  [DEFINITION_VERSION, DEFAULT_NAMESPACE, TEMPLATE_NAME,
   TOPOLOGY_TEMPLATE, TEMPLATE_AUTHOR, TEMPLATE_VERSION,
   DESCRIPTION, IMPORTS, DSL_DEFINITIONS, NODE_TYPES,
   RELATIONSHIP_TYPES, RELATIONSHIP_TEMPLATES,
   CAPABILITY_TYPES, ARTIFACT_TYPES, DATATYPE_DEFINITIONS]

def VALID_TEMPLATE_VERSIONS : List String := ["tosca_simple_yaml_1_0"]

/-! ### Errors raised by the class -/

inductive TErr where
  /-- Python `ImportError` with its message. -/
  | importError : String → TErr
  /-- Python `MissingRequiredFieldError(what=..., required=...)`. -/
  | missingRequiredField : String → String → TErr
  /-- Python `UnknownFieldError(what=..., field=...)`. -/
  | unknownField : String → String → TErr
  /-- Python `InvalidTemplateVersion(what=..., valid_versions=...)`. -/
  | invalidVersion : Value → String → TErr
  /-- Python `KeyError` from a `d[k]` access on an absent key. -/
  | keyError : String → TErr
  /-- Python `TypeError` or `AttributeError` from using a value at the wrong type. -/
  | typeError : TErr

/-- The external world: filesystem tests, path arithmetic, URL utilities and
the YAML loader (`YAML_LOADER(path, a_file)`), as used by the class. -/
structure Env where
  /-- Python `os.path.isfile`. -/
  isFile : String → Bool
  /-- Python `os.path.isabs`. -/
  isAbs : String → Bool
  /-- Python `os.path.dirname(os.path.abspath(.))`. -/
  dirnameAbs : String → String
  /-- Python `os.path.join`. -/
  joinPath : String → String → String
  /-- Python `toscaparser.utils.urlutils.UrlUtils.validate_url`. -/
  validate_url : String → Bool
  /-- Python `toscaparser.utils.urlutils.UrlUtils.join_url`. -/
  join_url : String → String → String
  /-- Python `YAML_LOADER(path, a_file)`, assumed to yield a top-level mapping. -/
  loadYaml : String → Bool → Doc

/-! ### The per-import location resolution inside `_get_custom_types` -/

/-- The body of the `for definition in imports` loop of `_get_custom_types`
up to the `YAML_LOADER` call: from the import string `definition` compute
`(def_file, a_file)`, or raise.  `main_a_file` is the root's locality as the
method computes it. -/
def resolveImport (env : Env) (main_a_file : Bool) (path definition : String) :
    Except TErr (String × Bool) :=
  if main_a_file then
    if env.isFile definition then Except.ok (definition, true)
    else
      let full_path := env.joinPath (env.dirnameAbs path) definition
      if env.isFile full_path then Except.ok (full_path, true)
      else Except.ok (definition, false)
  else
    if env.validate_url definition then Except.ok (definition, false)
    else if env.isAbs definition then
      Except.error (TErr.importError
        "Absolute file name cannot be used for a URL-based input template.")
    else Except.ok (env.join_url path definition, false)

/-- One iteration of the `for definition in imports` loop: resolve the
location, load the document, and overwrite-merge its section for
`type_definition` (when truthy) into the accumulator. -/
def importStep (env : Env) (main_a_file : Bool) (path type_definition : String)
    (acc : Doc) (dv : Value) : Except TErr Doc := do
  match dv with
  | Value.str definition => do
      let fa ← resolveImport env main_a_file path definition
      let custom_type := env.loadYaml fa.1 fa.2
      match dlookup custom_type type_definition with
      | some v =>
          if v.truthy then
            match v with
            | Value.map m => pure (dictUpdate acc m)
            | _ => throw TErr.typeError
          else pure acc
      | Option.none => pure acc
  | _ => throw TErr.typeError

/-- Source `_get_custom_types(type_definition)`: fold the imports in declaration
order (root locality freshly computed as `os.path.isfile(self.path)`), then
overwrite-merge the root document's own inline section last. -/
def _get_custom_types (env : Env) (path : String) (tpl : Doc)
    (type_definition : String) : Except TErr Doc := do
  let custom_defs ←
    match dlookup tpl IMPORTS with
    | some imports =>
        if imports.truthy then
          imports.pyIter.foldlM
            (importStep env (env.isFile path) path type_definition) []
        else pure ([] : Doc)
    | Option.none => pure ([] : Doc)
  match dlookup tpl type_definition with
  | some v =>
      if v.truthy then
        match v with
        | Value.map m => pure (dictUpdate custom_defs m)
        | _ => throw TErr.typeError
      else pure custom_defs
  | Option.none => pure custom_defs

/-- Source `_get_all_custom_defs`: union of the four per-category registries, in
the fixed internal order node / capability / relationship / datatype. -/
def _get_all_custom_defs (env : Env) (path : String) (tpl : Doc) :
    Except TErr Doc :=
  [NODE_TYPES, CAPABILITY_TYPES, RELATIONSHIP_TYPES,
   DATATYPE_DEFINITIONS].foldlM
    (fun acc t => do
      let custom_def ← _get_custom_types env path tpl t
      if !custom_def.isEmpty then pure (dictUpdate acc custom_def)
      else pure acc)
    ([] : Doc)

/-! ### Field validation -/

/-- Membership of the version value in `VALID_TEMPLATE_VERSIONS` (a list of
strings, so a non-string value never matches). -/
def versionAccepted (version : Value) : Bool :=
  match version with
  | Value.str s => VALID_TEMPLATE_VERSIONS.contains s
  | _ => false

/-- Source `_validate_version`: raise `InvalidTemplateVersion` unless the version
is a member of `VALID_TEMPLATE_VERSIONS`. -/
def _validate_version (version : Value) : Except TErr Unit :=
  if versionAccepted version then pure ()
  else Except.error (TErr.invalidVersion version
    (String.intercalate ", " VALID_TEMPLATE_VERSIONS))

/-- The `for name in self.tpl` loop of `_validate_field`: fail on the first
top-level key outside `SECTIONS`, in document order. -/
def checkFields : Doc → Except TErr Unit
  | [] => pure ()
  | (name, _) :: rest =>
      if SECTIONS.contains name then checkFields rest
      else Except.error (TErr.unknownField "Template" name)

/-- Source `_validate_field`: first the version presence/validity check (a missing
version key raises `KeyError`, converted to `MissingRequiredFieldError`),
then the unknown-key scan. -/
def _validate_field (tpl : Doc) : Except TErr Unit := do
  match dlookup tpl DEFINITION_VERSION with
  | Option.none =>
      throw (TErr.missingRequiredField "Template" DEFINITION_VERSION)
  | some version => _validate_version version
  checkFields tpl

/-! ### Simple accessors used by `__init__` -/

/-- Source `_tpl_version`: `self.tpl[DEFINITION_VERSION]` (raises `KeyError` when
absent). -/
def _tpl_version (tpl : Doc) : Except TErr Value :=
  match dlookup tpl DEFINITION_VERSION with
  | some v => pure v
  | Option.none => Except.error (TErr.keyError DEFINITION_VERSION)

/-- Python whitespace for `str.rstrip()`. -/
def pySpace (c : Char) : Bool :=
  c = ' ' || c = '\t' || c = '\n' || c = '\r' || c = '\x0b' || c = '\x0c'

/-- Python `str.rstrip()` with no argument: drop trailing whitespace. -/
def rstrip (s : String) : String :=
  String.mk (s.data.reverse.dropWhile pySpace).reverse

/-- Source `_tpl_description`: `self.tpl[DESCRIPTION].rstrip()` — `KeyError` when
the key is absent, `AttributeError` when the value is not a string. -/
def _tpl_description (tpl : Doc) : Except TErr String :=
  match dlookup tpl DESCRIPTION with
  | some (Value.str s) => pure (rstrip s)
  | some _ => Except.error TErr.typeError
  | Option.none => Except.error (TErr.keyError DESCRIPTION)

/-- The fields of `ToscaTemplate` assigned by `__init__` up to and including
`self.description`. -/
structure InitState where
  tpl : Doc
  path : String
  a_file : Bool
  version : Value
  relationship_types : Doc
  description : String

/-- Source `__init__(path, a_file)` through the `self.description` assignment:
load the root document, `_validate_field`, `_tpl_version`,
`_tpl_relationship_types` (= `_get_custom_types(RELATIONSHIP_TYPES)`) and
`_tpl_description`, in that order.  The remaining assignments
(`topology_template` onward) are built by modules outside this file and
cannot change these fields. -/
def toscaTemplateInit (env : Env) (path : String) (a_file : Bool) :
    Except TErr InitState := do
  let tpl := env.loadYaml path a_file
  _validate_field tpl
  let version ← _tpl_version tpl
  let relationship_types ← _get_custom_types env path tpl RELATIONSHIP_TYPES
  let description ← _tpl_description tpl
  pure { tpl := tpl, path := path, a_file := a_file, version := version,
         relationship_types := relationship_types,
         description := description }

/-! ### The spec's reading of root locality (for the refinement claim C8) -/

/-- Modelled from the spec: `_get_custom_types` as the spec describes it,
with the root's locality fixed at load time — the `a_file` flag given to the
constructor — instead of a fresh `os.path.isfile(self.path)` check.  The
body is otherwise identical to `_get_custom_types`. -/
def _get_custom_types_spec (root_a_file : Bool) (env : Env) (path : String)
    (tpl : Doc) (type_definition : String) : Except TErr Doc := do
  let custom_defs ←
    match dlookup tpl IMPORTS with
    | some imports =>
        if imports.truthy then
          imports.pyIter.foldlM
            (importStep env root_a_file path type_definition) []
        else pure ([] : Doc)
    | Option.none => pure ([] : Doc)
  match dlookup tpl type_definition with
  | some v =>
      if v.truthy then
        match v with
        | Value.map m => pure (dictUpdate custom_defs m)
        | _ => throw TErr.typeError
      else pure custom_defs
  | Option.none => pure custom_defs

/-! ### Concrete inputs used by witnesses and counterexamples -/

/-- The section document one import contributes for `type_definition`:
resolve the import, load it, and take its section when it is a truthy
mapping (`[]` when the section is absent or falsy). -/
def importSection (env : Env) (main_a_file : Bool)
    (path type_definition definition : String) : Except TErr Doc := do
  let fa ← resolveImport env main_a_file path definition
  let custom_type := env.loadYaml fa.1 fa.2
  match dlookup custom_type type_definition with
  | some v =>
      if v.truthy then
        match v with
        | Value.map m => pure m
        | _ => throw TErr.typeError
      else pure ([] : Doc)
  | Option.none => pure ([] : Doc)

/-- A document with an unknown key but no version key: `_validate_field`
reports the missing version, not the unknown key, refuting the claim that
any document with an out-of-schema key fails with `UnknownField`. -/
def c6Tpl : Doc := [("bogus", Value.none)]

/-- C6 witness input: a valid version key followed by two unknown keys. -/
def c6wTpl : Doc :=
  [(DEFINITION_VERSION, Value.str "tosca_simple_yaml_1_0"),
   ("zzz", Value.none), ("yyy", Value.none)]

/-- C8 counterexample environment: the constructor is told `a_file = true`,
but the root path does not exist on disk at merge time. -/
def c8Env : Env :=
  { isFile := fun _ => false
    isAbs := fun _ => true
    dirnameAbs := fun s => s
    joinPath := fun a b => a ++ "/" ++ b
    validate_url := fun _ => false
    join_url := fun a b => a ++ b
    loadYaml := fun _ _ => [] }

def c8Tpl : Doc := [(IMPORTS, Value.list [Value.str "/abs/types.yaml"])]

def c1Env : Env :=
  { isFile := fun s => s == "main.yaml" || s == "A.yaml" || s == "B.yaml"
    isAbs := fun _ => false
    dirnameAbs := fun _ => "/dir"
    joinPath := fun a b => a ++ "/" ++ b
    validate_url := fun _ => false
    join_url := fun a b => a ++ b
    loadYaml := fun f _ =>
      if f == "A.yaml" then
        [(NODE_TYPES, Value.map [("X", Value.str "from-A")])]
      else if f == "B.yaml" then
        [(NODE_TYPES, Value.map [("X", Value.str "from-B")])]
      else [] }

def c1Tpl : Doc :=
  [(IMPORTS, Value.list [Value.str "A.yaml", Value.str "B.yaml"]),
   (NODE_TYPES, Value.map [("X", Value.str "inline")])]

def c2Env : Env :=
  { isFile := fun _ => false
    isAbs := fun _ => false
    dirnameAbs := fun s => s
    joinPath := fun a b => a ++ "/" ++ b
    validate_url := fun _ => false
    join_url := fun a b => a ++ b
    loadYaml := fun _ _ => [] }

def c2Tpl : Doc :=
  [(NODE_TYPES, Value.map [("N", Value.str "n")]),
   (CAPABILITY_TYPES, Value.map [("C", Value.str "c")]),
   (RELATIONSHIP_TYPES, Value.map [("R", Value.str "r")]),
   (DATATYPE_DEFINITIONS, Value.map [("D", Value.str "d")])]

def c3Env : Env :=
  { isFile := fun _ => false
    isAbs := fun _ => true
    dirnameAbs := fun s => s
    joinPath := fun a b => a ++ "/" ++ b
    validate_url := fun _ => false
    join_url := fun a b => a ++ b
    loadYaml := fun _ _ => [] }

def c3Tpl : Doc := [(IMPORTS, Value.list [Value.str "/etc/types.yaml"])]

def c4Env : Env :=
  { isFile := fun s => s == "types.yaml" || s == "/dir/sub.yaml"
    isAbs := fun _ => false
    dirnameAbs := fun _ => "/dir"
    joinPath := fun a b => a ++ "/" ++ b
    validate_url := fun _ => false
    join_url := fun a b => a ++ b
    loadYaml := fun _ _ => [] }

/-- Same filesystem view as `c4Env`, different URL utilities. -/
def c4EnvUrl : Env :=
  { isFile := fun s => s == "types.yaml" || s == "/dir/sub.yaml"
    isAbs := fun _ => true
    dirnameAbs := fun _ => "/dir"
    joinPath := fun a b => a ++ "/" ++ b
    validate_url := fun _ => true
    join_url := fun a b => b ++ a
    loadYaml := fun _ _ => [] }

def c5Env : Env :=
  { isFile := fun _ => false
    isAbs := fun _ => false
    dirnameAbs := fun s => s
    joinPath := fun a b => a ++ "/" ++ b
    validate_url := fun s => s == "http://host/types.yaml"
    join_url := fun a b => a ++ "/" ++ b
    loadYaml := fun _ _ => [] }

def c7TplMissing : Doc := [(DESCRIPTION, Value.str "no version here")]

def c7TplBad : Doc :=
  [(DEFINITION_VERSION, Value.str "tosca_simple_yaml_2_0")]

def c7TplGood : Doc :=
  [(DEFINITION_VERSION, Value.str "tosca_simple_yaml_1_0"),
   (DESCRIPTION, Value.str "ok")]

def c9EnvNoDesc : Env :=
  { isFile := fun _ => false
    isAbs := fun _ => false
    dirnameAbs := fun s => s
    joinPath := fun a b => a ++ "/" ++ b
    validate_url := fun _ => false
    join_url := fun a b => a ++ b
    loadYaml := fun _ _ =>
      [(DEFINITION_VERSION, Value.str "tosca_simple_yaml_1_0")] }

def c9EnvDesc : Env :=
  { isFile := fun _ => false
    isAbs := fun _ => false
    dirnameAbs := fun s => s
    joinPath := fun a b => a ++ "/" ++ b
    validate_url := fun _ => false
    join_url := fun a b => a ++ b
    loadYaml := fun _ _ =>
      [(DEFINITION_VERSION, Value.str "tosca_simple_yaml_1_0"),
       (DESCRIPTION, Value.str "A template.  ")] }

def c10Env : Env :=
  { isFile := fun _ => false
    isAbs := fun _ => false
    dirnameAbs := fun s => s
    joinPath := fun a b => a ++ "/" ++ b
    validate_url := fun _ => false
    join_url := fun a b => a ++ b
    loadYaml := fun _ _ => [] }

def c10Tpl : Doc := [(NODE_TYPES, Value.map [("X", Value.str "inline")])]

/-! ### Association-list lemmas -/

theorem oOr_none_left (b : Option Value) : oOr Option.none b = b := rfl

theorem oOr_none_right (a : Option Value) : oOr a Option.none = a := by
  cases a <;> rfl

theorem oOr_assoc (a b c : Option Value) :
    oOr (oOr a b) c = oOr a (oOr b c) := by
  cases a <;> rfl

theorem dlookup_append (d e : Doc) (k : String) :
    dlookup (d ++ e) k = oOr (dlookup d k) (dlookup e k) := by
  induction d with
  | nil => simp [dlookup, oOr]
  | cons p rest ih =>
      obtain ⟨a, b⟩ := p
      by_cases hak : a = k
      · simp [dlookup, hak, oOr]
      · simp [dlookup, hak, ih]

theorem dlookup_dictSet (d : Doc) (k k' v : _) :
    dlookup (dictSet d k v) k' = if k = k' then some v else dlookup d k' := by
  induction d with
  | nil => simp [dictSet, dlookup]
  | cons p rest ih =>
      obtain ⟨a, b⟩ := p
      by_cases hak : a = k
      · subst hak
        by_cases hkk : a = k'
        · simp [dictSet, dlookup, hkk]
        · simp [dictSet, dlookup, hkk]
      · by_cases hkk : k = k'
        · subst hkk
          simp [dictSet, dlookup, hak, ih]
        · simp [dictSet, dlookup, hak, ih, hkk]

theorem dlookupLast_append (d e : Doc) (k : String) :
    dlookupLast (d ++ e) k = oOr (dlookupLast e k) (dlookupLast d k) := by
  unfold dlookupLast
  rw [List.reverse_append, dlookup_append]

theorem dlookup_dictUpdate (d e : Doc) (k : String) :
    dlookup (dictUpdate d e) k = oOr (dlookupLast e k) (dlookup d k) := by
  induction e generalizing d with
  | nil => simp [dictUpdate, dlookupLast, dlookup, oOr]
  | cons p rest ih =>
      obtain ⟨a, b⟩ := p
      have hstep : dictUpdate d ((a, b) :: rest) =
          dictUpdate (dictSet d a b) rest := rfl
      rw [hstep, ih, dlookup_dictSet]
      have hlast : dlookupLast ((a, b) :: rest) k =
          oOr (dlookupLast rest k) (if a = k then some b else Option.none) := by
        have : (a, b) :: rest = [(a, b)] ++ rest := rfl
        rw [this, dlookupLast_append]
        unfold dlookupLast
        simp [dlookup]
      rw [hlast, oOr_assoc]
      by_cases hak : a = k <;> simp [hak, oOr]

theorem dlookup_foldl_dictUpdate (secs : List Doc) (d : Doc) (k : String) :
    dlookup (secs.foldl dictUpdate d) k =
      oOr (dlookupLast secs.flatten k) (dlookup d k) := by
  induction secs generalizing d with
  | nil => simp [dlookupLast, dlookup, oOr]
  | cons s rest ih =>
      have : (s :: rest).flatten = s ++ rest.flatten := rfl
      rw [List.foldl_cons, ih, dlookup_dictUpdate, this, dlookupLast_append,
        oOr_assoc]

theorem dlookup_eq_none_of_not_mem (d : Doc) (k : String)
    (h : k ∉ d.map Prod.fst) : dlookup d k = Option.none := by
  induction d with
  | nil => rfl
  | cons p rest ih =>
      obtain ⟨a, b⟩ := p
      simp only [List.map_cons, List.mem_cons] at h
      push_neg at h
      have hak : a ≠ k := fun hc => h.1 hc.symm
      simp [dlookup, hak, ih h.2]

theorem dlookupLast_eq_none_of_not_mem (d : Doc) (k : String)
    (h : k ∉ d.map Prod.fst) : dlookupLast d k = Option.none := by
  unfold dlookupLast
  apply dlookup_eq_none_of_not_mem
  simpa using h

theorem dlookupLast_eq_dlookup_of_nodup (d : Doc) (k : String)
    (h : (d.map Prod.fst).Nodup) : dlookupLast d k = dlookup d k := by
  induction d with
  | nil => rfl
  | cons p rest ih =>
      obtain ⟨a, b⟩ := p
      simp only [List.map_cons, List.nodup_cons] at h
      have hcons : (a, b) :: rest = [(a, b)] ++ rest := rfl
      rw [hcons, dlookupLast_append]
      by_cases hak : a = k
      · subst hak
        have hnone : dlookup rest.reverse a = Option.none := by
          have h2 := dlookupLast_eq_none_of_not_mem rest a h.1
          unfold dlookupLast at h2
          exact h2
        simp [dlookupLast, dlookup, oOr, hnone]
      · have : dlookupLast [(a, b)] k = Option.none := by
          simp [dlookupLast, dlookup, hak]
        rw [this, oOr_none_right, ih h.2]
        simp [dlookup, hak]

theorem dictSet_append_of_absent (d : Doc) (k : String) (v : Value)
    (h : dlookup d k = Option.none) : dictSet d k v = d ++ [(k, v)] := by
  induction d with
  | nil => rfl
  | cons p rest ih =>
      obtain ⟨a, b⟩ := p
      by_cases hak : a = k
      · simp [dlookup, hak] at h
      · simp only [dlookup, if_neg hak] at h
        simp [dictSet, hak, ih h]

theorem dictUpdate_append_of_disjoint (m : Doc) (d : Doc)
    (hd : ∀ p ∈ m, dlookup d p.1 = Option.none)
    (hm : (m.map Prod.fst).Nodup) : dictUpdate d m = d ++ m := by
  induction m generalizing d with
  | nil => simp [dictUpdate]
  | cons p rest ih =>
      obtain ⟨a, b⟩ := p
      simp only [List.map_cons, List.nodup_cons] at hm
      have hstep : dictUpdate d ((a, b) :: rest) =
          dictUpdate (dictSet d a b) rest := rfl
      have habs : dlookup d a = Option.none := hd (a, b) (List.mem_cons_self _ _)
      rw [hstep, dictSet_append_of_absent d a b habs, ih, List.append_assoc]
      · rfl
      · intro p hp
        rw [dlookup_append]
        have h1 : dlookup d p.1 = Option.none := hd p (List.mem_cons_of_mem _ hp)
        have h2 : dlookup [(a, b)] p.1 = Option.none := by
          have : a ≠ p.1 := by
            intro hc
            exact hm.1 (hc ▸ (List.mem_map.mpr ⟨p, hp, rfl⟩))
          simp [dlookup, this]
        rw [h1, h2]
        rfl
      · exact hm.2

theorem dictUpdate_nil_of_nodup (m : Doc) (hm : (m.map Prod.fst).Nodup) :
    dictUpdate [] m = m := by
  rw [dictUpdate_append_of_disjoint m [] (fun _ _ => rfl) hm]
  rfl

/-! ### Bridging `_get_custom_types` to a pure merge of section documents -/

theorem importStep_eq_importSection (env : Env) (main_a_file : Bool)
    (path type_definition definition : String) (acc : Doc) :
    importStep env main_a_file path type_definition acc
        (Value.str definition) =
      (importSection env main_a_file path type_definition definition).map
        (fun sec => dictUpdate acc sec) := by
  unfold importStep importSection
  cases hres : resolveImport env main_a_file path definition with
  | error e => simp [hres, bind, Except.bind, Except.map]
  | ok fa =>
      simp only [bind, Except.bind]
      cases hsec : dlookup (env.loadYaml fa.1 fa.2) type_definition with
      | none => simp [hres, hsec, Except.map, dictUpdate, pure, Except.pure]
      | some v =>
          cases v with
          | str s =>
              by_cases hs : s.isEmpty <;>
                simp [hres, hsec, Value.truthy, hs, Except.map, dictUpdate,
                  pure, Except.pure, throw, throwThe, MonadExceptOf.throw]
          | none =>
              simp [hres, hsec, Value.truthy, Except.map, dictUpdate, pure,
                Except.pure]
          | list vs =>
              cases vs <;>
                simp [hres, hsec, Value.truthy, Except.map, dictUpdate, pure,
                  Except.pure, throw, throwThe, MonadExceptOf.throw]
          | map m =>
              cases m with
              | nil =>
                  simp [hres, hsec, Value.truthy, Except.map, dictUpdate,
                    pure, Except.pure]
              | cons p rest =>
                  simp [hres, hsec, Value.truthy, Except.map, pure,
                    Except.pure]

theorem foldlM_importStep (env : Env) (main_a_file : Bool)
    (path type_definition : String) (ds : List String) (secs : List Doc)
    (h : List.Forall₂
        (fun d sec =>
          importSection env main_a_file path type_definition d =
            Except.ok sec) ds secs)
    (acc : Doc) :
    (ds.map Value.str).foldlM
        (importStep env main_a_file path type_definition) acc =
      Except.ok (secs.foldl dictUpdate acc) := by
  induction h generalizing acc with
  | nil => rfl
  | cons hds htail ih =>
      rw [List.map_cons, List.foldlM_cons, importStep_eq_importSection, hds]
      exact ih (dictUpdate acc _)

/-- Shared characterization: with imports `ds` whose sections load as
`secs` and an inline mapping `m`, `_get_custom_types` returns the fold of
the sections in order, overwrite-merged with `m` last. -/
theorem get_custom_types_merge (env : Env) (path : String) (tpl : Doc)
    (cat : String) (ds : List String) (secs : List Doc) (m : Doc)
    (himp : dlookup tpl IMPORTS = some (Value.list (ds.map Value.str)))
    (hsecs : List.Forall₂
      (fun d sec =>
        importSection env (env.isFile path) path cat d = Except.ok sec)
      ds secs)
    (hinl : dlookup tpl cat = some (Value.map m)) :
    _get_custom_types env path tpl cat =
      Except.ok (dictUpdate (secs.foldl dictUpdate []) m) := by
  have hinline : ∀ cd : Doc,
      (if (Value.map m).truthy then
          match Value.map m with
          | Value.map m' => (pure (dictUpdate cd m') : Except TErr Doc)
          | _ => throw TErr.typeError
        else pure cd) = Except.ok (dictUpdate cd m) := by
    intro cd
    cases m <;> simp [Value.truthy, dictUpdate, pure, Except.pure]
  unfold _get_custom_types
  cases hsecs with
  | nil =>
      simp only [List.map_nil] at himp
      simp [himp, Value.truthy, bind, Except.bind, pure, Except.pure, hinl,
        hinline]
      intro hm
      subst hm
      rfl
  | cons hd htl =>
      rename_i d sec dtail sectail
      have hfold := foldlM_importStep env (env.isFile path) path cat
        (d :: dtail) (sec :: sectail) (List.Forall₂.cons hd htl) []
      simp only [List.map_cons] at himp
      simp only [List.map_cons] at hfold
      simp [himp, Value.truthy, Value.pyIter, hfold, bind, Except.bind,
        pure, Except.pure, hinl, hinline]
      intro hm
      subst hm
      rfl

/-- C1: for every template document and every type category, the merged
registry is the fold of the imports' sections in declaration order with
overwrite semantics, with the root's inline definitions overwrite-merged
last: a name defined inline maps to the inline definition, and a name
defined only by imports maps to its most recent (last) import binding. -/
theorem C1_merged_registry_fold (env : Env) (path : String) (tpl : Doc)
    (cat : String) (ds : List String) (secs : List Doc) (m : Doc)
    (himp : dlookup tpl IMPORTS = some (Value.list (ds.map Value.str)))
    (hsecs : List.Forall₂
      (fun d sec =>
        importSection env (env.isFile path) path cat d = Except.ok sec)
      ds secs)
    (hinl : dlookup tpl cat = some (Value.map m))
    (hnodup : (m.map Prod.fst).Nodup) :
    _get_custom_types env path tpl cat =
      Except.ok (dictUpdate (secs.foldl dictUpdate []) m) ∧
    ∀ k, dlookup (dictUpdate (secs.foldl dictUpdate []) m) k =
      oOr (dlookup m k) (dlookupLast secs.flatten k) := by
  refine ⟨get_custom_types_merge env path tpl cat ds secs m himp hsecs hinl,
    fun k => ?_⟩
  rw [dlookup_dictUpdate, dlookupLast_eq_dlookup_of_nodup m k hnodup,
    dlookup_foldl_dictUpdate]
  simp [dlookup, oOr_none_right]

/-! ### Claims C2 and C10: the aggregate registry and the no-imports case -/

/-- C2: the aggregate registry is the union of the per-category registries
for exactly node types, capability types, relationship types and datatype
definitions (artifact types excluded), merged in that fixed order; on a
name collision the later-merged category's definition silently replaces
the earlier one. -/
theorem C2_all_custom_defs (env : Env) (path : String) (tpl : Doc)
    (d1 d2 d3 d4 : Doc)
    (h1 : _get_custom_types env path tpl NODE_TYPES = Except.ok d1)
    (h2 : _get_custom_types env path tpl CAPABILITY_TYPES = Except.ok d2)
    (h3 : _get_custom_types env path tpl RELATIONSHIP_TYPES = Except.ok d3)
    (h4 : _get_custom_types env path tpl DATATYPE_DEFINITIONS = Except.ok d4) :
    _get_all_custom_defs env path tpl =
      Except.ok
        (dictUpdate (dictUpdate (dictUpdate (dictUpdate [] d1) d2) d3) d4) ∧
    ∀ k, dlookup
        (dictUpdate (dictUpdate (dictUpdate (dictUpdate [] d1) d2) d3) d4) k =
      oOr (dlookupLast d4 k) (oOr (dlookupLast d3 k)
        (oOr (dlookupLast d2 k) (dlookupLast d1 k))) := by
  have hguard : ∀ a d : Doc,
      (if !d.isEmpty then (Except.ok (dictUpdate a d) : Except TErr Doc)
        else Except.ok a) = Except.ok (dictUpdate a d) := by
    intro a d
    cases d <;> simp [dictUpdate]
  constructor
  · unfold _get_all_custom_defs
    simp [List.foldlM, h1, h2, h3, h4, hguard, bind, Except.bind, pure,
      Except.pure]
  · intro k
    rw [dlookup_dictUpdate, dlookup_dictUpdate, dlookup_dictUpdate,
      dlookup_dictUpdate]
    simp [dlookup, oOr_none_right]

/-- C10: when the imports section is absent or an empty list, no import
document is consulted (the result is the same for every loader and
filesystem) and the registry is exactly the root's inline section for the
category — empty when there is none. -/
theorem C10_no_imports (env : Env) (path : String) (tpl : Doc) (cat : String)
    (m : Doc)
    (himp : dlookup tpl IMPORTS = Option.none ∨
      dlookup tpl IMPORTS = some (Value.list [])) :
    (dlookup tpl cat = Option.none →
      _get_custom_types env path tpl cat = Except.ok []) ∧
    (dlookup tpl cat = some (Value.map m) → (m.map Prod.fst).Nodup →
      _get_custom_types env path tpl cat = Except.ok m) := by
  have hred : _get_custom_types env path tpl cat =
      (match dlookup tpl cat with
       | some v =>
           if v.truthy then
             match v with
             | Value.map mm => pure (dictUpdate [] mm)
             | _ => throw TErr.typeError
           else pure ([] : Doc)
       | Option.none => pure ([] : Doc)) := by
    unfold _get_custom_types
    rcases himp with h | h <;>
      simp [h, Value.truthy, bind, Except.bind, pure, Except.pure]
  constructor
  · intro hinl
    rw [hred, hinl]
    rfl
  · intro hinl hnodup
    rw [hred, hinl]
    cases m with
    | nil => rfl
    | cons p rest =>
        simp [Value.truthy, pure, Except.pure,
          dictUpdate_nil_of_nodup _ hnodup]

/-! ### Claims C6 and C7: field and version validation -/

theorem checkFields_first_bad (pre post : Doc) (bad : String) (v : Value)
    (hpre : ∀ p ∈ pre, SECTIONS.contains p.1 = true)
    (hbad : SECTIONS.contains bad = false) :
    checkFields (pre ++ (bad, v) :: post) =
      Except.error (TErr.unknownField "Template" bad) := by
  induction pre with
  | nil =>
      rw [List.nil_append]
      unfold checkFields
      rw [hbad]
      rfl
  | cons p rest ih =>
      obtain ⟨a, b⟩ := p
      have ha := hpre (a, b) (List.mem_cons_self _ _)
      simp only [List.cons_append, checkFields, ha, if_pos]
      exact ih (fun q hq => hpre q (List.mem_cons_of_mem _ hq))

theorem checkFields_all_ok (tpl : Doc)
    (h : ∀ p ∈ tpl, SECTIONS.contains p.1 = true) :
    checkFields tpl = Except.ok () := by
  induction tpl with
  | nil => rfl
  | cons p rest ih =>
      obtain ⟨a, b⟩ := p
      have ha := h (a, b) (List.mem_cons_self _ _)
      simp only [checkFields, ha, if_pos]
      exact ih (fun q hq => h q (List.mem_cons_of_mem _ hq))

/-- C6 counterexample: on `c6Tpl` (unknown key `"bogus"`, no version key)
`_validate_field` fails with `MissingRequiredField`, not `UnknownField`. -/
theorem C6_counterexample :
    _validate_field c6Tpl =
      Except.error (TErr.missingRequiredField "Template" DEFINITION_VERSION) ∧
    _validate_field c6Tpl ≠
      Except.error (TErr.unknownField "Template" "bogus") := by
  constructor
  · rfl
  · intro h
    have h1 : _validate_field c6Tpl =
        Except.error (TErr.missingRequiredField "Template"
          DEFINITION_VERSION) := rfl
    rw [h1] at h
    injection h with h2
    exact TErr.noConfusion h2

/-- C6 (amended): provided the version key is present with an accepted
value, a document containing a top-level key outside `SECTIONS` fails with
`UnknownField` naming the first such key in document order, and later
invalid keys are not reported. -/
theorem C6_first_unknown_field (tpl pre post : Doc) (bad : String)
    (v ver : Value)
    (hver : dlookup tpl DEFINITION_VERSION = some ver)
    (hvalid : versionAccepted ver = true)
    (hsplit : tpl = pre ++ (bad, v) :: post)
    (hpre : ∀ p ∈ pre, SECTIONS.contains p.1 = true)
    (hbad : SECTIONS.contains bad = false) :
    _validate_field tpl = Except.error (TErr.unknownField "Template" bad) := by
  unfold _validate_field
  simp only [hver, _validate_version, hvalid, if_pos, bind, Except.bind,
    pure, Except.pure]
  rw [hsplit]
  exact checkFields_first_bad pre post bad v hpre hbad

theorem C6_first_unknown_field_witness :
    _validate_field c6wTpl =
      Except.error (TErr.unknownField "Template" "zzz") :=
  C6_first_unknown_field c6wTpl
    [(DEFINITION_VERSION, Value.str "tosca_simple_yaml_1_0")]
    [("yyy", Value.none)] "zzz" Value.none
    (Value.str "tosca_simple_yaml_1_0") rfl (by decide) rfl
    (by intro p hp; simp at hp; rw [hp]; decide) (by decide)

/-- C7: `_validate_field` fails with `MissingRequiredField` naming the
version key when it is absent; fails with `InvalidTemplateVersion` citing
the accepted set (the single literal `tosca_simple_yaml_1_0`) when present
but not accepted; and succeeds when the version is accepted and every
top-level key is in `SECTIONS`. -/
theorem C7_version_validation (tpl : Doc) (ver : Value) :
    (dlookup tpl DEFINITION_VERSION = Option.none →
      _validate_field tpl =
        Except.error (TErr.missingRequiredField "Template"
          DEFINITION_VERSION)) ∧
    (dlookup tpl DEFINITION_VERSION = some ver →
      versionAccepted ver = false →
      _validate_field tpl =
        Except.error (TErr.invalidVersion ver
          (String.intercalate ", " VALID_TEMPLATE_VERSIONS))) ∧
    String.intercalate ", " VALID_TEMPLATE_VERSIONS =
      "tosca_simple_yaml_1_0" ∧
    (dlookup tpl DEFINITION_VERSION = some ver →
      versionAccepted ver = true →
      (∀ p ∈ tpl, SECTIONS.contains p.1 = true) →
      _validate_field tpl = Except.ok ()) := by
  refine ⟨fun hnone => ?_, fun hver hbad => ?_, by rfl,
    fun hver hok hkeys => ?_⟩
  · unfold _validate_field
    simp [hnone, bind, Except.bind, throw, throwThe, MonadExceptOf.throw]
  · unfold _validate_field
    simp [hver, _validate_version, hbad, bind, Except.bind]
  · unfold _validate_field
    simp only [hver, _validate_version, hok, if_pos, bind, Except.bind,
      pure, Except.pure]
    exact checkFields_all_ok tpl hkeys

/-! ### Claims C3, C4, C5: per-import location resolution -/

/-- C3: for a remotely-rooted template (the fresh `os.path.isfile` check on
the root path is false), an import string that is not a valid URL but is an
absolute path makes resolution raise `ImportError`, and `_get_custom_types`
propagates that error without loading any document (the result is this
error for every possible loader). -/
theorem C3_remote_absolute_import (env : Env)
    (path definition cat : String) (tpl : Doc) (rest : List Value)
    (hroot : env.isFile path = false)
    (hurl : env.validate_url definition = false)
    (habs : env.isAbs definition = true)
    (himp : dlookup tpl IMPORTS =
      some (Value.list (Value.str definition :: rest))) :
    resolveImport env false path definition =
      Except.error (TErr.importError
        "Absolute file name cannot be used for a URL-based input template.") ∧
    _get_custom_types env path tpl cat =
      Except.error (TErr.importError
        "Absolute file name cannot be used for a URL-based input template.") := by
  have h1 : resolveImport env false path definition =
      Except.error (TErr.importError
        "Absolute file name cannot be used for a URL-based input template.") := by
    unfold resolveImport
    simp [hurl, habs]
  refine ⟨h1, ?_⟩
  have hstep : importStep env (env.isFile path) path cat []
      (Value.str definition) =
      Except.error (TErr.importError
        "Absolute file name cannot be used for a URL-based input template.") := by
    rw [importStep_eq_importSection]
    unfold importSection
    rw [hroot, h1]
    rfl
  unfold _get_custom_types
  simp [himp, Value.truthy, Value.pyIter, List.foldlM_cons, hstep, bind,
    Except.bind]

/-- C4: for a locally-rooted template, each import is resolved by the
three-step strategy — as-is when it names an existing file, else joined
with the root's directory when that names an existing file, else passed
through unchanged with the non-local flag — and the decision never
consults the URL utilities. -/
theorem C4_local_resolution (env env2 : Env) (path definition : String) :
    (env.isFile definition = true →
      resolveImport env true path definition =
        Except.ok (definition, true)) ∧
    (env.isFile definition = false →
      env.isFile (env.joinPath (env.dirnameAbs path) definition) = true →
      resolveImport env true path definition =
        Except.ok (env.joinPath (env.dirnameAbs path) definition, true)) ∧
    (env.isFile definition = false →
      env.isFile (env.joinPath (env.dirnameAbs path) definition) = false →
      resolveImport env true path definition =
        Except.ok (definition, false)) ∧
    (env.isFile = env2.isFile → env.joinPath = env2.joinPath →
      env.dirnameAbs = env2.dirnameAbs →
      resolveImport env true path definition =
        resolveImport env2 true path definition) := by
  refine ⟨fun h1 => ?_, fun h1 h2 => ?_, fun h1 h2 => ?_,
    fun hf hj hd => ?_⟩ <;> unfold resolveImport <;>
    simp_all

/-- C5: for a remotely-rooted template, an import string that parses as a
valid URL is used as-is with locality Remote; one that is neither a valid
URL nor an absolute path is joined against the root's own URL, also with
locality Remote. -/
theorem C5_remote_resolution (env : Env) (path definition : String) :
    (env.validate_url definition = true →
      resolveImport env false path definition =
        Except.ok (definition, false)) ∧
    (env.validate_url definition = false → env.isAbs definition = false →
      resolveImport env false path definition =
        Except.ok (env.join_url path definition, false)) := by
  refine ⟨fun h1 => ?_, fun h1 h2 => ?_⟩ <;> unfold resolveImport <;>
    simp_all

/-! ### Claim C8: root locality is re-evaluated, not fixed at load time -/

/-- C8 counterexample: with the constructor flag `a_file = true` but
`os.path.isfile(path)` false, `_get_custom_types` raises `ImportError`
while the spec's flag-based resolution succeeds — the merge does NOT use
the load-time locality. -/
theorem C8_counterexample :
    _get_custom_types c8Env "root.yaml" c8Tpl NODE_TYPES ≠
      _get_custom_types_spec true c8Env "root.yaml" c8Tpl NODE_TYPES := by
  intro h
  have h1 : _get_custom_types c8Env "root.yaml" c8Tpl NODE_TYPES =
      Except.error (TErr.importError
        "Absolute file name cannot be used for a URL-based input template.") :=
    rfl
  have h2 : _get_custom_types_spec true c8Env "root.yaml" c8Tpl NODE_TYPES =
      Except.ok [] := rfl
  rw [h1, h2] at h
  exact Except.noConfusion h

/-- C8 (amended): the root's locality is re-evaluated by a fresh
`os.path.isfile` check on the root path at every `_get_custom_types` call;
the constructor's `a_file` flag is never consulted, so the code coincides
with the spec's flag-based resolution exactly when the flag is taken to be
that fresh check. -/
theorem C8_locality_recomputed (env : Env) (path : String) (tpl : Doc)
    (cat : String) :
    _get_custom_types env path tpl cat =
      _get_custom_types_spec (env.isFile path) env path tpl cat := rfl

/-! ### Claim C9: the description field is de facto required -/

/-- C9: once a document passes field validation (where only the version key
is required) and its imports resolve, construction still fails with the
`KeyError` from the description lookup when the description key is absent;
when it is present with a string value, the constructed template's
description is that string with trailing whitespace stripped. -/
theorem C9_description_required (env : Env) (path : String) (af : Bool)
    (tpl rt : Doc) (s : String) (ver : Value)
    (htpl : env.loadYaml path af = tpl) :
    (_validate_field tpl = Except.ok () →
      dlookup tpl DESCRIPTION = Option.none →
      _get_custom_types env path tpl RELATIONSHIP_TYPES = Except.ok rt →
      toscaTemplateInit env path af =
        Except.error (TErr.keyError DESCRIPTION)) ∧
    (_validate_field tpl = Except.ok () →
      dlookup tpl DEFINITION_VERSION = some ver →
      dlookup tpl DESCRIPTION = some (Value.str s) →
      _get_custom_types env path tpl RELATIONSHIP_TYPES = Except.ok rt →
      toscaTemplateInit env path af =
        Except.ok { tpl := tpl, path := path, a_file := af, version := ver,
                    relationship_types := rt,
                    description := rstrip s }) := by
  constructor
  · intro hval hdesc hrt
    have hver : ∃ v, dlookup tpl DEFINITION_VERSION = some v := by
      cases hc : dlookup tpl DEFINITION_VERSION with
      | some v => exact ⟨v, rfl⟩
      | none =>
          exfalso
          unfold _validate_field at hval
          simp [hc, bind, Except.bind, throw, throwThe,
            MonadExceptOf.throw] at hval
    obtain ⟨v, hv⟩ := hver
    unfold toscaTemplateInit
    rw [htpl]
    simp [hval, _tpl_version, hv, hrt, _tpl_description, hdesc, bind,
      Except.bind, pure, Except.pure, throw, throwThe, MonadExceptOf.throw]
  · intro hval hv hdesc hrt
    unfold toscaTemplateInit
    rw [htpl]
    simp [hval, _tpl_version, hv, hrt, _tpl_description, hdesc, bind,
      Except.bind, pure, Except.pure]

/-! ### Witnesses: the proved properties hold at concrete inputs -/

theorem C1_witness :
    _get_custom_types c1Env "main.yaml" c1Tpl NODE_TYPES =
      Except.ok (dictUpdate
        ([[("X", Value.str "from-A")], [("X", Value.str "from-B")]].foldl
          dictUpdate []) [("X", Value.str "inline")]) ∧
    dlookup (dictUpdate
        ([[("X", Value.str "from-A")], [("X", Value.str "from-B")]].foldl
          dictUpdate []) [("X", Value.str "inline")]) "X" =
      oOr (dlookup [("X", Value.str "inline")] "X")
        (dlookupLast [[("X", Value.str "from-A")],
          [("X", Value.str "from-B")]].flatten "X") := by
  have h := C1_merged_registry_fold c1Env "main.yaml" c1Tpl NODE_TYPES
    ["A.yaml", "B.yaml"]
    [[("X", Value.str "from-A")], [("X", Value.str "from-B")]]
    [("X", Value.str "inline")] rfl
    (List.Forall₂.cons rfl (List.Forall₂.cons rfl List.Forall₂.nil))
    rfl (by decide)
  exact ⟨h.1, h.2 "X"⟩

theorem C2_witness :
    _get_all_custom_defs c2Env "p.yaml" c2Tpl =
      Except.ok (dictUpdate (dictUpdate (dictUpdate
        (dictUpdate [] [("N", Value.str "n")]) [("C", Value.str "c")])
        [("R", Value.str "r")]) [("D", Value.str "d")]) ∧
    dlookup (dictUpdate (dictUpdate (dictUpdate
        (dictUpdate [] [("N", Value.str "n")]) [("C", Value.str "c")])
        [("R", Value.str "r")]) [("D", Value.str "d")]) "N" =
      oOr (dlookupLast [("D", Value.str "d")] "N")
        (oOr (dlookupLast [("R", Value.str "r")] "N")
          (oOr (dlookupLast [("C", Value.str "c")] "N")
            (dlookupLast [("N", Value.str "n")] "N"))) := by
  have h := C2_all_custom_defs c2Env "p.yaml" c2Tpl
    [("N", Value.str "n")] [("C", Value.str "c")] [("R", Value.str "r")]
    [("D", Value.str "d")] rfl rfl rfl rfl
  exact ⟨h.1, h.2 "N"⟩

theorem C3_witness :
    resolveImport c3Env false "https://host/root.yaml" "/etc/types.yaml" =
      Except.error (TErr.importError
        "Absolute file name cannot be used for a URL-based input template.") ∧
    _get_custom_types c3Env "https://host/root.yaml" c3Tpl NODE_TYPES =
      Except.error (TErr.importError
        "Absolute file name cannot be used for a URL-based input template.") :=
  C3_remote_absolute_import c3Env "https://host/root.yaml" "/etc/types.yaml"
    NODE_TYPES c3Tpl [] rfl rfl rfl rfl

theorem C4_witness :
    resolveImport c4Env true "main.yaml" "types.yaml" =
      Except.ok ("types.yaml", true) ∧
    resolveImport c4Env true "main.yaml" "sub.yaml" =
      Except.ok (c4Env.joinPath (c4Env.dirnameAbs "main.yaml") "sub.yaml",
        true) ∧
    resolveImport c4Env true "main.yaml" "nope.yaml" =
      Except.ok ("nope.yaml", false) ∧
    resolveImport c4Env true "main.yaml" "nope.yaml" =
      resolveImport c4EnvUrl true "main.yaml" "nope.yaml" :=
  ⟨(C4_local_resolution c4Env c4EnvUrl "main.yaml" "types.yaml").1 rfl,
   (C4_local_resolution c4Env c4EnvUrl "main.yaml" "sub.yaml").2.1 rfl rfl,
   (C4_local_resolution c4Env c4EnvUrl "main.yaml" "nope.yaml").2.2.1 rfl
     rfl,
   (C4_local_resolution c4Env c4EnvUrl "main.yaml" "nope.yaml").2.2.2 rfl
     rfl rfl⟩

theorem C5_witness :
    resolveImport c5Env false "http://host/root.yaml"
        "http://host/types.yaml" =
      Except.ok ("http://host/types.yaml", false) ∧
    resolveImport c5Env false "http://host/root.yaml" "types.yaml" =
      Except.ok (c5Env.join_url "http://host/root.yaml" "types.yaml",
        false) :=
  ⟨(C5_remote_resolution c5Env "http://host/root.yaml"
      "http://host/types.yaml").1 rfl,
   (C5_remote_resolution c5Env "http://host/root.yaml" "types.yaml").2 rfl
     rfl⟩

theorem C7_witness :
    _validate_field c7TplMissing =
      Except.error (TErr.missingRequiredField "Template"
        DEFINITION_VERSION) ∧
    _validate_field c7TplBad =
      Except.error (TErr.invalidVersion
        (Value.str "tosca_simple_yaml_2_0")
        (String.intercalate ", " VALID_TEMPLATE_VERSIONS)) ∧
    _validate_field c7TplGood = Except.ok () :=
  ⟨(C7_version_validation c7TplMissing Value.none).1 rfl,
   (C7_version_validation c7TplBad
      (Value.str "tosca_simple_yaml_2_0")).2.1 rfl (by decide),
   (C7_version_validation c7TplGood
      (Value.str "tosca_simple_yaml_1_0")).2.2.2 rfl (by decide)
     (by decide)⟩

theorem C9_witness :
    toscaTemplateInit c9EnvNoDesc "t.yaml" true =
      Except.error (TErr.keyError DESCRIPTION) ∧
    toscaTemplateInit c9EnvDesc "t.yaml" true =
      Except.ok { tpl := [(DEFINITION_VERSION,
                    Value.str "tosca_simple_yaml_1_0"),
                  (DESCRIPTION, Value.str "A template.  ")],
                  path := "t.yaml", a_file := true,
                  version := Value.str "tosca_simple_yaml_1_0",
                  relationship_types := [],
                  description := rstrip "A template.  " } ∧
    rstrip "A template.  " = "A template." := by
  refine ⟨?_, ?_, rfl⟩
  · exact (C9_description_required c9EnvNoDesc "t.yaml" true
      [(DEFINITION_VERSION, Value.str "tosca_simple_yaml_1_0")] [] ""
      Value.none rfl).1 rfl rfl rfl
  · exact (C9_description_required c9EnvDesc "t.yaml" true
      [(DEFINITION_VERSION, Value.str "tosca_simple_yaml_1_0"),
       (DESCRIPTION, Value.str "A template.  ")] [] "A template.  "
      (Value.str "tosca_simple_yaml_1_0") rfl).2 rfl rfl rfl rfl

theorem C10_witness :
    _get_custom_types c10Env "p.yaml" c10Tpl NODE_TYPES =
      Except.ok [("X", Value.str "inline")] ∧
    _get_custom_types c10Env "p.yaml" c10Tpl CAPABILITY_TYPES =
      Except.ok [] :=
  ⟨(C10_no_imports c10Env "p.yaml" c10Tpl NODE_TYPES
      [("X", Value.str "inline")] (Or.inl rfl)).2 rfl (by decide),
   (C10_no_imports c10Env "p.yaml" c10Tpl CAPABILITY_TYPES []
      (Or.inl rfl)).1 rfl⟩
